import Mathlib

/-!
Verification development for the SlivOSH Telegram storefront bot
(`src/main.py`). The handlers, FSM storage, SQLite-backed settings
and user tables, and the broadcast loop are shallowly embedded as
executable Lean definitions; the theorems below settle the testable
properties of the specification against this embedding.

Conventions of the embedding:
* Telegram user identities are `Nat`.
* Python strings are Lean `String`s (sequences of unicode scalar values;
  Python slicing and `str.strip` act on code points, as Lean `Char` lists do).
* The SQLite tables `settings (key PRIMARY KEY, value)` and
  `users (user_id PRIMARY KEY, ...)` are association lists whose
  `REPLACE INTO` upsert overwrites the row with the matching primary key
  in place, or appends a fresh row.
* The aiogram `MemoryStorage` FSM state for the sender is a `Session`
  value; the aiogram "no state set" default is `FSMState.idle`.
* Each handler is a function from the view the sender has of the world
  (`Env` = settings table, users table, the session of the sender) to the new
  `Env` plus a list of outbound actions (`Out`).
-/

namespace SlivOSH

/-- The aiogram FSM states of `AdminStates`; `idle` stands for the aiogram
default of no state set (state None). -/
inductive FSMState where
  | idle
  | waiting_broadcast_text
  | waiting_broadcast_confirm
  | waiting_card_number
  | waiting_recipient_fio
deriving DecidableEq, Repr

/-- The FSM session of the sender: current state plus the `FSMContext` data
dict written by `state.update_data` (keys `broadcast_text` and
`card_number`). -/
structure Session where
  state : FSMState
  broadcast_text : Option String
  card_number : Option String
deriving DecidableEq, Repr

/-- The initial aiogram session: no state, empty data. The call state.finish
returns the session to this value (it clears both state and data). -/
def Session.init : Session := ⟨.idle, none, none⟩

/-- The `settings` table: rows `(key, value)` with `key` the primary key. -/
abbrev Settings := List (String × String)

/-- A row of the `users` table. -/
structure UserRow where
  user_id : Nat
  username : String
  first_name : String
  last_name : String
  registered_at : String
deriving DecidableEq, Repr

/-- Embeds `db_set_setting`: REPLACE INTO settings —
overwrites the row with this primary key, or inserts one. -/
def db_set_setting : Settings → String → String → Settings
  | [], key, value => [(key, value)]
  | kv :: rest, key, value =>
    if kv.1 = key then (key, value) :: rest
    else kv :: db_set_setting rest key value

/-- Embeds `db_get_setting`: SELECT value FROM settings WHERE key matches,
returning the empty string when no row matches. -/
def db_get_setting : Settings → String → String
  | [], _ => ""
  | kv :: rest, key => if kv.1 = key then kv.2 else db_get_setting rest key

/-- Seeded settings rows of `init_db` (INSERT OR IGNORE defaults). -/
def init_settings : Settings :=
  [("card_number", "0000 0000 0000 0000"), ("recipient_fio", "Ф.И.О. Получателя")]

/-- Embeds `db_add_user`: REPLACE INTO users — upsert keyed on `user_id`. -/
def db_add_user : List UserRow → UserRow → List UserRow
  | [], u => [u]
  | r :: rest, u =>
    if r.user_id = u.user_id then u :: rest
    else r :: db_add_user rest u

/-- Embeds `db_get_all_user_ids`: SELECT user_id FROM users. -/
def db_get_all_user_ids (users : List UserRow) : List Nat :=
  users.map (·.user_id)

/-! ### Python string primitives used by the handlers -/

/-- Python `s[:n]` on a `str`: the first `n` code points. -/
def pyTake (s : String) (n : Nat) : String := ⟨s.toList.take n⟩

/-- Python `str.strip()`: remove leading and trailing whitespace. -/
def pyStrip (s : String) : String :=
  ⟨((s.toList.dropWhile Char.isWhitespace).reverse.dropWhile Char.isWhitespace).reverse⟩

/-- Python `s.startswith(pre)`. -/
def pyStartsWith (s pre : String) : Bool :=
  pre.toList.isPrefixOf s.toList

/-- Split a character list on a separator character (every occurrence). -/
def splitOnChar (c : Char) : List Char → List (List Char)
  | [] => [[]]
  | x :: xs =>
    let r := splitOnChar c xs
    if x = c then [] :: r
    else
      match r with
      | [] => [[x]]
      | w :: ws => (x :: w) :: ws

/-- Python `s.split(c)` for a one-character separator (the callback
payloads subj-key and school-key-school are parsed by splitting on the
pipe character). -/
def pySplit (s : String) (c : Char) : List String :=
  (splitOnChar c s.toList).map String.mk

/-- Whether `needle` occurs as a contiguous substring of `hay`. -/
def listContains (needle hay : List Char) : Bool :=
  (List.range (hay.length + 1)).any fun i => needle.isPrefixOf (hay.drop i)

/-! ### Outbound actions -/

/-- The outbound messaging actions a handler can perform. -/
inductive Out where
  | reply (text : String)
  | sendMessage (chatId : Nat) (text : String)
  | answerCb (text : String)
  | answerAlert (text : String)
  | editMessage (text : String)
deriving DecidableEq, Repr

/-- The view a handler has of the world: the two SQLite tables plus the
FSM session of the sender. -/
structure Env where
  settings : Settings
  users : List UserRow
  session : Session
deriving DecidableEq, Repr

/-! ### Static texts and catalog -/

/-- The welcome text sent by `cmd_start`. -/
def cmd_start_text : String :=
  "🎓 Добро пожаловать в *ЕГЭ Школу Онлайн* — быстрые и понятные курсы для уверенной подготовки к экзаменам!\n\nЗдесь вы можете купить доступ к видеоурокам, авторским заданиям и разбору задач от опытных преподавателей.\n\n📚 Доступна подготовка по профильной и базовой программе, персональные чек-листы и рекомендации.\n\nВыберите предмет и программу — получите готовую дорожную карту подготовки и материалы сразу после оплаты."

/-- The (truncated) welcome text rendered by the `back_start` callback. -/
def back_start_text : String :=
  "🎓 Добро пожаловать в *ЕГЭ Школу Онлайн* — быстрые и понятные курсы для уверенной подготовки к экзаменам!\n\nЗдесь вы можете купить доступ к видеоурокам..."

/-- Fallback notice sent by `catch_all`. -/
def fallback_text : String :=
  "Команда не распознана. Нажмите /start чтобы вернуться в начало."

/-- The `SUBJECTS` dict: subject key ↦ (title, price). -/
def SUBJECTS : List (String × String × Nat) :=
  [("math_p", "Профильная математика", 499),
   ("rus", "Русский язык", 499),
   ("bio", "Биология", 349),
   ("info", "Информатика", 349),
   ("hist", "История", 349),
   ("soc", "Обществознание", 349),
   ("chem", "Химия", 329),
   ("phys", "Физика", 329)]

def MANAGER_USERNAME : String := "qwuzinw"

def SCHOOLS : List String := ["стобальный", "пифагор"]

/-! ### Message handlers -/

/-- An inbound message: sender identity and display fields plus its text
(`none` for non-text content). -/
structure Msg where
  fromId : Nat
  username : String
  first_name : String
  last_name : String
  text : Option String
deriving DecidableEq, Repr

/-- Embeds `cmd_start`: register the sender (upsert) and send the promo text.
`now` stands for `datetime.utcnow().isoformat()`. -/
def cmd_start (now : String) (env : Env) (m : Msg) : Env × List Out :=
  ({env with users :=
      db_add_user env.users ⟨m.fromId, m.username, m.first_name, m.last_name, now⟩},
   [.reply cmd_start_text])

/-- Embeds `cmd_admin`: admin panel, or access-denied for anyone else. -/
def cmd_admin (adminId : Nat) (fromId : Nat) (env : Env) : Env × List Out :=
  if fromId ≠ adminId then (env, [.reply "Доступ запрещён."])
  else (env, [.reply "Панель администратора:"])

/-- Embeds the `admin_broadcast` callback: prompt for the broadcast text and enter
`waiting_broadcast_text`; non-admins get an alert and no state change. -/
def admin_broadcast (adminId : Nat) (fromId : Nat) (env : Env) : Env × List Out :=
  if fromId ≠ adminId then (env, [.answerAlert "Нет доступа"])
  else
    ({env with session := {env.session with state := .waiting_broadcast_text}},
     [.answerCb "", .sendMessage adminId "Отправьте текст для рассылки (макс 4000 символов)."])

/-- Embeds `receive_broadcast_text`: store `message.text[:4000]` as the draft
and move to `waiting_broadcast_confirm`. -/
def receive_broadcast_text (adminId : Nat) (fromId : Nat) (t : String) (env : Env) :
    Env × List Out :=
  if fromId ≠ adminId then (env, [.reply "Нет доступа."])
  else
    let text := pyTake t 4000
    ({env with session :=
        { state := .waiting_broadcast_confirm
          broadcast_text := some text
          card_number := env.session.card_number }},
     [.reply ("Предпросмотр рассылки:\n\n" ++ text)])

/-- Embeds the `admin_set_card` callback: prompt for the card number and enter
`waiting_card_number`; non-admins get an alert and no state change. -/
def admin_set_card (adminId : Nat) (fromId : Nat) (env : Env) : Env × List Out :=
  if fromId ≠ adminId then (env, [.answerAlert "Нет доступа"])
  else
    ({env with session := {env.session with state := .waiting_card_number}},
     [.answerCb "", .sendMessage adminId "Введите номер карты (или реквизиты) — отправьте одним сообщением:"])

/-- Embeds `receive_card_number`: strip the text, store it as the draft card
number, move to `waiting_recipient_fio`. -/
def receive_card_number (adminId : Nat) (fromId : Nat) (t : String) (env : Env) :
    Env × List Out :=
  if fromId ≠ adminId then (env, [.reply "Нет доступа."])
  else
    let card := pyStrip t
    ({env with session :=
        { state := .waiting_recipient_fio
          broadcast_text := env.session.broadcast_text
          card_number := some card }},
     [.reply "Теперь укажите ФИО получателя:"])

/-- Embeds `receive_recipient_fio`: strip the text, persist both settings keys,
report the final values, and finish the session. -/
def receive_recipient_fio (adminId : Nat) (fromId : Nat) (t : String) (env : Env) :
    Env × List Out :=
  if fromId ≠ adminId then (env, [.reply "Нет доступа."])
  else
    let fio := pyStrip t
    let card := (env.session.card_number).getD ""
    let s1 := db_set_setting env.settings "card_number" card
    let s2 := db_set_setting s1 "recipient_fio" fio
    ({settings := s2, users := env.users, session := Session.init},
     [.reply ("Реквизиты обновлены:\n" ++ card ++ "\n" ++ fio)])

/-- Embeds `catch_all`: polite fallback for unknown messages, except that a
text starting with a slash (an unknown command) is silently ignored. The
Python guard — message.text and message.text.startswith slash — is falsy
for None and for the empty string. -/
def catch_all (env : Env) (ot : Option String) : Env × List Out :=
  match ot with
  | some t =>
    if t ≠ "" ∧ pyStartsWith t "/" = true then (env, [])
    else (env, [.reply fallback_text])
  | none => (env, [.reply fallback_text])

/-! ### Broadcast dispatcher -/

/-- One iteration of the broadcast `for` loop: attempt the send (the
attempt is appended to the trace), then count it as sent on success or —
the exception being caught — as failed, and continue with the rest of the
list. `ok uid` is the verdict of the environment on whether
`bot.send_message(uid, text)` succeeds. -/
def broadcastStep (ok : Nat → Bool) (acc : Nat × Nat × List Nat) (uid : Nat) :
    Nat × Nat × List Nat :=
  if ok uid then (acc.1 + 1, acc.2.1, acc.2.2 ++ [uid])
  else (acc.1, acc.2.1 + 1, acc.2.2 ++ [uid])

/-- The broadcast loop over the recipient list: returns
(sent, failed, trace of attempted identities in order). -/
def broadcastRun (ok : Nat → Bool) (ids : List Nat) : Nat × Nat × List Nat :=
  ids.foldl (broadcastStep ok) (0, 0, [])

/-- The completion report: Готово. Отправлено: sent. Не доставлено: failed. -/
def report (sent failed : Nat) : String :=
  "Готово. Отправлено: " ++ (toString sent ++ (". Не доставлено: " ++ (toString failed ++ ".")))

/-- Embeds the `broadcast_confirm_or_cancel` callback (guarded to state
`waiting_broadcast_confirm`): cancel discards the draft; confirm runs the
dispatcher over all registered users and reports to the admin. -/
def broadcast_confirm_or_cancel (adminId : Nat) (fromId : Nat) (data : String)
    (ok : Nat → Bool) (env : Env) : Env × List Out :=
  if fromId ≠ adminId then (env, [.answerAlert "Нет доступа"])
  else if data = "broadcast_cancel" then
    ({env with session := Session.init},
     [.answerCb "Рассылка отменена", .sendMessage adminId "Отменено."])
  else
    let text := (env.session.broadcast_text).getD ""
    let ids := db_get_all_user_ids env.users
    let r := broadcastRun ok ids
    ({env with session := Session.init},
     [.answerCb "Запуск рассылки..."]
       ++ ((ids.filter ok).map fun uid => Out.sendMessage uid text)
       ++ [.sendMessage adminId (report r.1 r.2.1)])

/-! ### Menu navigation -/

/-- The screens of the menu navigation tree. -/
inductive Screen where
  | welcome
  | subjectList
  | programList (subj : String)
  | productDetail (subj school : String)
deriving DecidableEq, Repr

/-- Lookup of `SUBJECTS[subj_key]` (a missing key raises `KeyError` in
Python; here it yields `none`). -/
def lookupSubject (key : String) : Option (String × Nat) :=
  (SUBJECTS.find? fun e => e.1 == key).map (·.2)

/-- The product-detail text built by `process_school`: settings are read
from the store at render time. -/
def process_school_text (settings : Settings) (subj_title : String) (price : Nat)
    (school : String) : String :=
  let card := db_get_setting settings "card_number"
  let fio := db_get_setting settings "recipient_fio"
  "*Товар:* " ++ (subj_title ++ (" — " ++ (school ++ ("\n*Цена:* " ++ (toString price ++
    ("₽\n\n*Реквизиты для оплаты:*\n" ++ (card ++ ("\n" ++ (fio ++
    ("\n\nПосле оплаты пришлите, пожалуйста, чек менеджеру @" ++ (MANAGER_USERNAME ++
    (".\n" ++ "Мы пришлем доступ в течение рабочего времени."))))))))))))

/-- Dispatch one browsing callback by its payload, in the
`callback_query_handler` registration order (`buy`, `subj|…`, `school|…`,
`back_subjects`, `back_start`): the pair is the screen the edited message
now shows and its rendered text. `none` when no handler matches or the
handler raises (unknown subject key). -/
def handle_nav_callback (settings : Settings) (data : String) : Option (Screen × String) :=
  if data = "buy" then some (.subjectList, "Выберите предмет:")
  else if pyStartsWith data "subj|" then
    match pySplit data '|' with
    | [_, k] =>
      (lookupSubject k).map fun tp =>
        (.programList k, "Предмет: *" ++ (tp.1 ++ "*\nВыберите программу:"))
    | _ => none
  else if pyStartsWith data "school|" then
    match pySplit data '|' with
    | [_, k, s] =>
      (lookupSubject k).map fun tp =>
        (.productDetail k s, process_school_text settings tp.1 tp.2 s)
    | _ => none
  else if data = "back_subjects" then some (.subjectList, "Выберите предмет:")
  else if data = "back_start" then some (.welcome, back_start_text)
  else none

/-- Run a sequence of browsing callbacks starting from the welcome screen
as rendered by `cmd_start`; the result is the screen/text shown at the
end (navigation is stateless: each callback fully determines the next
render). -/
def runNav (settings : Settings) (ds : List String) : Option (Screen × String) :=
  ds.foldl (fun acc d => acc.bind fun _ => handle_nav_callback settings d)
    (some (.welcome, cmd_start_text))

/-! ### Message routing -/

/-- The first whitespace-delimited word of a text (what the aiogram
commands filter matches against). -/
def firstWord (s : String) : String := ⟨s.toList.takeWhile fun c => c ≠ ' '⟩

/-- Whether the message triggers the `commands=[cmd]` filter. -/
def isCommand (m : Msg) (cmd : String) : Bool :=
  match m.text with
  | some t => firstWord t == "/" ++ cmd
  | none => false

/-- Route an inbound message in aiogram registration order: a
`message_handler` without a `state=` filter fires only in the default
(no) state, each `receive_*` text handler fires only in its own state,
and a message matched by no handler is dropped. -/
def dispatchMessage (adminId : Nat) (now : String) (env : Env) (m : Msg) : Env × List Out :=
  if env.session.state = .idle ∧ isCommand m "start" = true then cmd_start now env m
  else if env.session.state = .idle ∧ isCommand m "admin" = true then
    cmd_admin adminId m.fromId env
  else
    match env.session.state, m.text with
    | .waiting_broadcast_text, some t => receive_broadcast_text adminId m.fromId t env
    | .waiting_card_number, some t => receive_card_number adminId m.fromId t env
    | .waiting_recipient_fio, some t => receive_recipient_fio adminId m.fromId t env
    | .idle, ot => catch_all env ot
    | _, _ => (env, [])

/-! ### Atomicity model for the settings writes

The bot runs on a single asyncio event loop: another coroutine can only
observe the settings store at an `await` boundary of a handler, never
between two consecutive synchronous calls. The effect of a handler on the
store is therefore a list of atomic write segments. -/

/-- Apply one atomic segment (a list of `db_set_setting` calls executed
with no `await` between them). -/
def applySeg (s : Settings) (writes : List (String × String)) : Settings :=
  writes.foldl (fun acc kv => db_set_setting acc kv.1 kv.2) s

/-- The write segments of the admin path of `receive_recipient_fio`,
delimited by its `await` points: the `await state.get_data()` precedes
any write, the two `db_set_setting` calls are synchronous and so share a
single segment, and the `await message.reply(...)` / `state.finish()`
follow with no further writes. -/
def recipient_fio_segments (card fio : String) : List (List (String × String)) :=
  [[], [("card_number", card), ("recipient_fio", fio)], []]

/-- The settings states any other coroutine can observe around a
segments of a handler: the store before the handler runs and after each
atomic segment. -/
def observations (s : Settings) (segs : List (List (String × String))) : List Settings :=
  List.scanl applySeg s segs

/-- Register a whole sequence of users into an initially empty table
(every `/start` performs one `db_add_user` upsert). -/
def registerAll (regs : List UserRow) : List UserRow :=
  regs.foldl db_add_user []

/-- A concrete world: freshly initialized settings, no users, no session. -/
def env0 : Env := ⟨init_settings, [], Session.init⟩

/-- A concrete world in which the admin has just been prompted for the
broadcast text. -/
def envBroadcastWait : Env := ⟨init_settings, [], ⟨.waiting_broadcast_text, none, none⟩⟩

/-! ### Supporting lemmas -/

theorem strToList_append (a b : String) : (a ++ b).toList = a.toList ++ b.toList := rfl

theorem db_get_setting_db_set_setting_self (db : Settings) (k v : String) :
    db_get_setting (db_set_setting db k v) k = v := by
  induction db with
  | nil => simp [db_set_setting, db_get_setting]
  | cons kv rest ih =>
    by_cases h : kv.1 = k
    · simp [db_set_setting, h, db_get_setting]
    · simp [db_set_setting, h, db_get_setting, ih]

theorem db_get_setting_db_set_setting_other (db : Settings) (k k' v : String)
    (h : k' ≠ k) :
    db_get_setting (db_set_setting db k v) k' = db_get_setting db k' := by
  induction db with
  | nil => simp [db_set_setting, db_get_setting, Ne.symm h]
  | cons kv rest ih =>
    by_cases hk : kv.1 = k
    · subst hk
      simp [db_set_setting, db_get_setting, Ne.symm h]
    · simp [db_set_setting, hk, db_get_setting, ih]

theorem broadcastRun_foldl (ok : Nat → Bool) (ids : List Nat) :
    ∀ s f tr, ids.foldl (broadcastStep ok) (s, f, tr) =
      (s + ids.countP ok, f + ids.countP (fun u => !ok u), tr ++ ids) := by
  induction ids with
  | nil => intro s f tr; simp
  | cons uid rest ih =>
    intro s f tr
    by_cases h : ok uid = true <;>
      simp [broadcastStep, h, ih, List.countP_cons, Prod.ext_iff,
        List.append_assoc] <;> omega

theorem broadcastRun_eq (ok : Nat → Bool) (ids : List Nat) :
    broadcastRun ok ids = (ids.countP ok, ids.countP (fun u => !ok u), ids) := by
  simpa [broadcastRun] using broadcastRun_foldl ok ids 0 0 []

theorem countP_ok_add_countP_not (ok : Nat → Bool) (ids : List Nat) :
    ids.countP ok + ids.countP (fun u => !ok u) = ids.length := by
  induction ids with
  | nil => simp
  | cons a l ih => by_cases h : ok a = true <;> simp [List.countP_cons, h] <;> omega

theorem mem_user_ids_db_add_user {x : Nat} (users : List UserRow) (u : UserRow)
    (h : x ∈ db_get_all_user_ids (db_add_user users u)) :
    x ∈ db_get_all_user_ids users ∨ x = u.user_id := by
  induction users with
  | nil =>
    simp [db_add_user, db_get_all_user_ids] at h
    exact Or.inr h
  | cons r rest ih =>
    by_cases hr : r.user_id = u.user_id
    · simp [db_add_user, hr, db_get_all_user_ids] at h ⊢
      rcases h with h | h
      · exact Or.inr h
      · exact Or.inl (Or.inr h)
    · simp [db_add_user, hr, db_get_all_user_ids] at h ⊢
      rcases h with h | h
      · exact Or.inl (Or.inl h)
      · rcases ih (by simpa [db_get_all_user_ids] using h) with h2 | h2
        · exact Or.inl (Or.inr (by simpa [db_get_all_user_ids] using h2))
        · exact Or.inr h2

theorem nodup_user_ids_db_add_user (users : List UserRow) (u : UserRow)
    (h : (db_get_all_user_ids users).Nodup) :
    (db_get_all_user_ids (db_add_user users u)).Nodup := by
  induction users with
  | nil => simp [db_add_user, db_get_all_user_ids]
  | cons r rest ih =>
    simp only [db_get_all_user_ids, List.map_cons, List.nodup_cons] at h
    by_cases hr : r.user_id = u.user_id
    · simp only [db_add_user, if_pos hr, db_get_all_user_ids, List.map_cons,
        List.nodup_cons]
      exact ⟨by rw [← hr]; simpa [db_get_all_user_ids] using h.1, h.2⟩
    · simp only [db_add_user, if_neg hr, db_get_all_user_ids, List.map_cons,
        List.nodup_cons]
      refine ⟨fun hmem => ?_, ih h.2⟩
      rcases mem_user_ids_db_add_user rest u hmem with h2 | h2
      · exact h.1 (by simpa [db_get_all_user_ids] using h2)
      · exact hr h2

theorem nodup_user_ids_registerAll (regs : List UserRow) :
    (db_get_all_user_ids (registerAll regs)).Nodup := by
  suffices h : ∀ users, (db_get_all_user_ids users).Nodup →
      (db_get_all_user_ids (regs.foldl db_add_user users)).Nodup by
    exact h [] (by simp [db_get_all_user_ids])
  induction regs with
  | nil => intro users hu; simpa using hu
  | cons u rest ih => intro users hu; exact ih _ (nodup_user_ids_db_add_user users u hu)

theorem listContains_append (n A B : List Char) :
    listContains n (A ++ (n ++ B)) = true := by
  unfold listContains
  rw [List.any_eq_true]
  refine ⟨A.length, ?_, ?_⟩
  · rw [List.mem_range]
    simp [List.length_append]
    omega
  · rw [List.drop_left]
    exact List.isPrefixOf_iff_prefix.mpr (List.prefix_append n B)

theorem process_school_text_contains (settings : Settings) (title : String) (price : Nat)
    (school : String) :
    listContains (db_get_setting settings "card_number").toList
      (process_school_text settings title price school).toList = true ∧
    listContains (db_get_setting settings "recipient_fio").toList
      (process_school_text settings title price school).toList = true := by
  constructor
  · have h : (process_school_text settings title price school).toList =
        ("*Товар:* ".toList ++ (title.toList ++ (" — ".toList ++ (school.toList ++
          ("\n*Цена:* ".toList ++ ((toString price).toList ++
            "₽\n\n*Реквизиты для оплаты:*\n".toList)))))) ++
        ((db_get_setting settings "card_number").toList ++
          ("\n".toList ++ ((db_get_setting settings "recipient_fio").toList ++
            ("\n\nПосле оплаты пришлите, пожалуйста, чек менеджеру @".toList ++
              (MANAGER_USERNAME.toList ++ (".\n".toList ++
                "Мы пришлем доступ в течение рабочего времени.".toList)))))) := by
      simp [process_school_text, strToList_append, List.append_assoc]
    rw [h]
    exact listContains_append ..
  · have h : (process_school_text settings title price school).toList =
        ("*Товар:* ".toList ++ (title.toList ++ (" — ".toList ++ (school.toList ++
          ("\n*Цена:* ".toList ++ ((toString price).toList ++
            ("₽\n\n*Реквизиты для оплаты:*\n".toList ++
              ((db_get_setting settings "card_number").toList ++ "\n".toList)))))))) ++
        ((db_get_setting settings "recipient_fio").toList ++
          ("\n\nПосле оплаты пришлите, пожалуйста, чек менеджеру @".toList ++
            (MANAGER_USERNAME.toList ++ (".\n".toList ++
              "Мы пришлем доступ в течение рабочего времени.".toList)))) := by
      simp [process_school_text, strToList_append, List.append_assoc]
    rw [h]
    exact listContains_append ..

/-! ### The claims -/

/-- Claim C1: a non-administrator invoking any of the three admin actions
(`/admin` command, broadcast button, set-payment-details button) receives
an access-denied notice, and the world is left exactly as it was: the
settings store is unmodified and the conversation session of the sender is
unchanged — in particular it stays `idle` with no session data created. -/
theorem C1_nonadmin_admin_actions_denied (adminId fromId : Nat) (env : Env)
    (h : fromId ≠ adminId) :
    cmd_admin adminId fromId env = (env, [.reply "Доступ запрещён."]) ∧
    admin_broadcast adminId fromId env = (env, [.answerAlert "Нет доступа"]) ∧
    admin_set_card adminId fromId env = (env, [.answerAlert "Нет доступа"]) := by
  refine ⟨?_, ?_, ?_⟩ <;> simp [cmd_admin, admin_broadcast, admin_set_card, h]

/-- Witness for C1 at a concrete non-admin identity. -/
theorem C1_witness :
    (7 : Nat) ≠ 10 ∧
    cmd_admin 10 7 env0 = (env0, [.reply "Доступ запрещён."]) :=
  ⟨by decide, (C1_nonadmin_admin_actions_denied 10 7 env0 (by decide)).1⟩

/-- Claim C2: for every recipient list and every per-recipient outcome
the dispatcher attempts the whole list (a failure is caught, counted, and
does not abort the rest) and sent + failed covers every recipient; in
particular over five recipients where exactly the third delivery fails
the loop completes with sent = 4 and failed = 1. -/
theorem C2_broadcast_partial_failure_counts :
    (∀ (ok : Nat → Bool) (ids : List Nat),
      (broadcastRun ok ids).2.2 = ids ∧
      (broadcastRun ok ids).1 = ids.countP ok ∧
      (broadcastRun ok ids).1 + (broadcastRun ok ids).2.1 = ids.length) ∧
    broadcastRun (fun u => u != 103) [101, 102, 103, 104, 105] =
      (4, 1, [101, 102, 103, 104, 105]) := by
  constructor
  · intro ok ids
    rw [broadcastRun_eq]
    exact ⟨rfl, rfl, countP_ok_add_countP_not ok ids⟩
  · decide

/-- Claim C3: in the set-payment-details flow the card-number input and
the recipient-name input are both stripped of surrounding whitespace and
persisted to the settings store, the session returns to idle, and every
subsequent product-detail render — for any subject, price and program —
reads the store at render time and shows exactly the persisted values. -/
theorem C3_payment_details_trim_persist_render (adminId : Nat) (t1 t2 : String)
    (env : Env) :
    db_get_setting (receive_recipient_fio adminId adminId t2
        (receive_card_number adminId adminId t1 env).1).1.settings "card_number"
      = pyStrip t1 ∧
    db_get_setting (receive_recipient_fio adminId adminId t2
        (receive_card_number adminId adminId t1 env).1).1.settings "recipient_fio"
      = pyStrip t2 ∧
    (receive_recipient_fio adminId adminId t2
        (receive_card_number adminId adminId t1 env).1).1.session = Session.init ∧
    ∀ (title : String) (price : Nat) (school : String),
      listContains (pyStrip t1).toList
        (process_school_text (receive_recipient_fio adminId adminId t2
          (receive_card_number adminId adminId t1 env).1).1.settings
          title price school).toList = true ∧
      listContains (pyStrip t2).toList
        (process_school_text (receive_recipient_fio adminId adminId t2
          (receive_card_number adminId adminId t1 env).1).1.settings
          title price school).toList = true := by
  have hcard : db_get_setting (receive_recipient_fio adminId adminId t2
      (receive_card_number adminId adminId t1 env).1).1.settings "card_number"
      = pyStrip t1 := by
    simp only [receive_card_number, receive_recipient_fio, if_neg (by simp : ¬adminId ≠ adminId)]
    rw [db_get_setting_db_set_setting_other _ _ _ _ (by decide)]
    exact db_get_setting_db_set_setting_self ..
  have hfio : db_get_setting (receive_recipient_fio adminId adminId t2
      (receive_card_number adminId adminId t1 env).1).1.settings "recipient_fio"
      = pyStrip t2 := by
    simp only [receive_card_number, receive_recipient_fio, if_neg (by simp : ¬adminId ≠ adminId)]
    exact db_get_setting_db_set_setting_self ..
  refine ⟨hcard, hfio, ?_, ?_⟩
  · simp [receive_card_number, receive_recipient_fio]
  · intro title price school
    have h := process_school_text_contains (receive_recipient_fio adminId adminId t2
      (receive_card_number adminId adminId t1 env).1).1.settings title price school
    rw [hcard, hfio] at h
    exact h

/-- Claim C4: the admin text received in `waiting_broadcast_text` is
stored as `text[:4000]`: for input length L ≤ 4000 the draft is the input
unmodified, and for L > 4000 it is the input truncated to exactly 4000
code points (the first 4000 of the input). -/
theorem C4_broadcast_text_truncation (adminId : Nat) (t : String) (env : Env) :
    (receive_broadcast_text adminId adminId t env).1.session.broadcast_text
      = some (pyTake t 4000) ∧
    (t.length ≤ 4000 → pyTake t 4000 = t) ∧
    (4000 < t.length →
      (pyTake t 4000).length = 4000 ∧ (pyTake t 4000).toList = t.toList.take 4000) := by
  refine ⟨?_, ?_, ?_⟩
  · simp [receive_broadcast_text]
  · intro h
    show String.mk (t.data.take 4000) = t
    rw [List.take_of_length_le h]
  · intro h
    refine ⟨?_, rfl⟩
    show (t.data.take 4000).length = 4000
    rw [List.length_take]
    have hlen : t.length = t.data.length := rfl
    omega

/-- Witness for C4: a short input is stored unmodified, and a 4001-point
input is truncated to length 4000. -/
theorem C4_witness :
    (("hello" : String).length ≤ 4000 ∧ pyTake "hello" 4000 = "hello") ∧
    (4000 < (String.mk (List.replicate 4001 'a')).length ∧
      (pyTake (String.mk (List.replicate 4001 'a')) 4000).length = 4000) :=
  ⟨⟨by decide, (C4_broadcast_text_truncation 0 "hello" env0).2.1 (by decide)⟩,
   ⟨by show (4000 : Nat) < (List.replicate 4001 'a').length
       rw [List.length_replicate]
       omega,
    ((C4_broadcast_text_truncation 0 (String.mk (List.replicate 4001 'a'))
      env0).2.2 (by show (4000 : Nat) < (List.replicate 4001 'a').length
                    rw [List.length_replicate]
                    omega)).1⟩⟩

/-- Claim C5 (code divergence): the round trip subject select → program
select → back → back does end on the welcome screen, but the `back_start`
handler renders a truncated welcome text that differs from the initial
welcome render produced by `cmd_start`. -/
theorem C5_roundtrip_welcome_render_differs :
    runNav init_settings
        ["buy", "subj|math_p", "school|math_p|стобальный", "back_subjects", "back_start"]
      = some (.welcome, back_start_text) ∧
    back_start_text ≠ cmd_start_text := by
  constructor
  · decide
  · decide

/-- Claim C6 (counterexample): for the completed five-recipient dispatch
with sent = 4 and failed = 1 the completion report does not contain the
total attempted (5 = 4 + 1): the report carries only the sent and failed
counts. -/
theorem C6_report_total_missing :
    listContains (toString (4 + 1 : Nat)).toList (report 4 1).toList = false := by
  decide

/-- Claim C6 (amended): the completion report sent to the administrator
contains the count sent and the count failed (the total attempted is not
printed; it is recoverable as their sum), and the confirm path of the
broadcast callback ends by sending exactly this report to the admin. -/
theorem C6_report_contents (adminId : Nat) (ok : Nat → Bool) (env : Env)
    (sent failed : Nat) :
    listContains (toString sent).toList (report sent failed).toList = true ∧
    listContains (toString failed).toList (report sent failed).toList = true ∧
    (broadcast_confirm_or_cancel adminId adminId "broadcast_confirm" ok env).2.getLast? =
      some (.sendMessage adminId
        (report (broadcastRun ok (db_get_all_user_ids env.users)).1
          (broadcastRun ok (db_get_all_user_ids env.users)).2.1)) := by
  refine ⟨?_, ?_, ?_⟩
  · have h : (report sent failed).toList =
        "Готово. Отправлено: ".toList ++ ((toString sent).toList ++
          (". Не доставлено: ".toList ++ ((toString failed).toList ++ ".".toList))) := by
      simp [report, strToList_append, List.append_assoc]
    rw [h]
    exact listContains_append ..
  · have h : (report sent failed).toList =
        ("Готово. Отправлено: ".toList ++ ((toString sent).toList ++
          ". Не доставлено: ".toList)) ++ ((toString failed).toList ++ ".".toList) := by
      simp [report, strToList_append, List.append_assoc]
    rw [h]
    exact listContains_append ..
  · simp [broadcast_confirm_or_cancel]
    rw [← List.cons_append, List.getLast?_concat]

/-- The settings the admin path of `receive_recipient_fio` leaves behind
are exactly the result of its single write segment applied to the store. -/
theorem receive_recipient_fio_settings_eq_segments (adminId : Nat) (t : String)
    (env : Env) :
    (receive_recipient_fio adminId adminId t env).1.settings =
      applySeg env.settings
        [("card_number", (env.session.card_number).getD ""),
         ("recipient_fio", pyStrip t)] := by
  simp [receive_recipient_fio, applySeg]

/-- Claim C7: every settings state another coroutine can observe while
`receive_recipient_fio` persists the two keys — the store before the
handler and the store after each atomic segment (the two
`db_set_setting` calls are synchronous, with no `await` between them, so
they share one segment) — shows either both keys at their old values or
both keys at their new values; no observation has only one key updated. -/
theorem C7_settings_update_atomic_enough (s0 : Settings) (card fio : String)
    (s : Settings) (h : s ∈ observations s0 (recipient_fio_segments card fio)) :
    (db_get_setting s "card_number" = db_get_setting s0 "card_number" ∧
     db_get_setting s "recipient_fio" = db_get_setting s0 "recipient_fio") ∨
    (db_get_setting s "card_number" = card ∧
     db_get_setting s "recipient_fio" = fio) := by
  have hobs : observations s0 (recipient_fio_segments card fio) =
      [s0, s0,
       db_set_setting (db_set_setting s0 "card_number" card) "recipient_fio" fio,
       db_set_setting (db_set_setting s0 "card_number" card) "recipient_fio" fio] := by
    simp [observations, recipient_fio_segments, applySeg]
  rw [hobs] at h
  have hcard : db_get_setting
      (db_set_setting (db_set_setting s0 "card_number" card) "recipient_fio" fio)
      "card_number" = card := by
    rw [db_get_setting_db_set_setting_other _ _ _ _ (by decide)]
    exact db_get_setting_db_set_setting_self ..
  have hfio : db_get_setting
      (db_set_setting (db_set_setting s0 "card_number" card) "recipient_fio" fio)
      "recipient_fio" = fio := db_get_setting_db_set_setting_self ..
  simp only [List.mem_cons, List.not_mem_nil, or_false] at h
  rcases h with rfl | rfl | rfl | rfl
  · exact Or.inl ⟨rfl, rfl⟩
  · exact Or.inl ⟨rfl, rfl⟩
  · exact Or.inr ⟨hcard, hfio⟩
  · exact Or.inr ⟨hcard, hfio⟩

/-- Witness for C7 at the first observation point of a concrete run. -/
theorem C7_witness :
    init_settings ∈ observations init_settings
        (recipient_fio_segments "4000 1234" "Ivan Petrov") ∧
    ((db_get_setting init_settings "card_number" =
        db_get_setting init_settings "card_number" ∧
      db_get_setting init_settings "recipient_fio" =
        db_get_setting init_settings "recipient_fio") ∨
     (db_get_setting init_settings "card_number" = "4000 1234" ∧
      db_get_setting init_settings "recipient_fio" = "Ivan Petrov")) :=
  ⟨by decide, C7_settings_update_atomic_enough init_settings "4000 1234" "Ivan Petrov"
      init_settings (by decide)⟩

/-- Claim C8 (counterexample): an unknown slash command arriving while no
conversation state is active is silently ignored — `catch_all` produces
no fallback notice — refuting the claim that every unmatched input,
command or not, gets the polite notice. -/
theorem C8_unknown_command_silently_ignored :
    catch_all env0 (some "/frobnicate") = (env0, []) := by decide

/-- Claim C8 (amended): an input matched by no handler while no
conversation state is active is routed to `catch_all`, which never
changes the state or the stores; a non-command input (free text, empty
text, or non-text content) receives the polite fallback notice, while an
unknown slash command is silently ignored with no notice. -/
theorem C8_fallback_behaviour (adminId : Nat) (now : String) (env : Env) (m : Msg)
    (hidle : env.session.state = .idle)
    (hs : isCommand m "start" = false) (ha : isCommand m "admin" = false) :
    dispatchMessage adminId now env m = catch_all env m.text ∧
    (catch_all env m.text).1 = env ∧
    ((∃ t, m.text = some t ∧ t ≠ "" ∧ pyStartsWith t "/" = true) →
      (catch_all env m.text).2 = []) ∧
    ((∀ t, m.text = some t → ¬(t ≠ "" ∧ pyStartsWith t "/" = true)) →
      (catch_all env m.text).2 = [.reply fallback_text]) := by
  refine ⟨?_, ?_, ?_, ?_⟩
  · cases hmt : m.text with
    | none => simp [dispatchMessage, hidle, hs, ha, hmt]
    | some t => simp [dispatchMessage, hidle, hs, ha, hmt]
  · cases hmt : m.text with
    | none => simp [catch_all]
    | some t =>
      simp only [catch_all]
      split <;> rfl
  · rintro ⟨t, hmt, hne, hsl⟩
    rw [hmt]
    simp [catch_all, hne, hsl]
  · intro hno
    cases hmt : m.text with
    | none => simp [catch_all]
    | some t =>
      have hc := hno t hmt
      simp [catch_all, hc]

/-- Witness for C8: a plain unmatched text in the idle state produces the
fallback notice through the dispatcher. -/
theorem C8_witness :
    (env0.session.state = FSMState.idle ∧
     isCommand ⟨5, "", "", "", some "hi"⟩ "start" = false ∧
     isCommand ⟨5, "", "", "", some "hi"⟩ "admin" = false) ∧
    dispatchMessage 10 "" env0 ⟨5, "", "", "", some "hi"⟩ =
      catch_all env0 (some "hi") ∧
    (catch_all env0 (some "hi")).2 = [.reply fallback_text] := by
  have h := C8_fallback_behaviour 10 "" env0 ⟨5, "", "", "", some "hi"⟩ rfl
    (by decide) (by decide)
  refine ⟨⟨rfl, by decide, by decide⟩, h.1, h.2.2.2 ?_⟩
  intro t ht
  have ht2 : t = "hi" := (Option.some.inj ht).symm
  subst ht2
  decide

/-- Claim C9 (counterexample): with the admin in `waiting_broadcast_text`
the slash-style command `/start` is consumed as the broadcast text — the
stored draft becomes `/start` — refuting the claim that a slash-style
command is not consumed as the expected text. -/
theorem C9_slash_command_consumed :
    pyStartsWith "/start" "/" = true ∧
    (dispatchMessage 10 "2026-10-12" envBroadcastWait
        ⟨10, "", "", "", some "/start"⟩).1.session.broadcast_text = some "/start" := by
  refine ⟨by decide, by decide⟩

/-- Claim C9 (amended): while the admin is in any text-awaiting state,
every admin text input is consumed as the expected text of that state,
whether or not it is a slash-style command: the message routes to that
receive handler of that state, which stores `text[:4000]` as the broadcast
draft, or strips and stores the draft card number and advances, or
strips and persists the recipient name. -/
theorem C9_text_states_consume_all_text (adminId : Nat) (now t : String) (env : Env)
    (m : Msg) (hm : m.fromId = adminId) (ht : m.text = some t) :
    (env.session.state = .waiting_broadcast_text →
      dispatchMessage adminId now env m = receive_broadcast_text adminId adminId t env ∧
      (receive_broadcast_text adminId adminId t env).1.session.broadcast_text
        = some (pyTake t 4000)) ∧
    (env.session.state = .waiting_card_number →
      dispatchMessage adminId now env m = receive_card_number adminId adminId t env ∧
      (receive_card_number adminId adminId t env).1.session.card_number
        = some (pyStrip t) ∧
      (receive_card_number adminId adminId t env).1.session.state
        = .waiting_recipient_fio) ∧
    (env.session.state = .waiting_recipient_fio →
      dispatchMessage adminId now env m = receive_recipient_fio adminId adminId t env ∧
      db_get_setting (receive_recipient_fio adminId adminId t env).1.settings
        "recipient_fio" = pyStrip t) := by
  refine ⟨fun hst => ⟨?_, ?_⟩, fun hst => ⟨?_, ?_, ?_⟩, fun hst => ⟨?_, ?_⟩⟩
  · simp [dispatchMessage, hst, ht, hm]
  · simp [receive_broadcast_text]
  · simp [dispatchMessage, hst, ht, hm]
  · simp [receive_card_number]
  · simp [receive_card_number]
  · simp [dispatchMessage, hst, ht, hm]
  · simp only [receive_recipient_fio, if_neg (by simp : ¬adminId ≠ adminId)]
    exact db_get_setting_db_set_setting_self ..

/-- Witness for C9: even the known command text `/admin` is consumed as
the broadcast draft while the admin is in `waiting_broadcast_text`. -/
theorem C9_witness :
    ((⟨10, "", "", "", some "/admin"⟩ : Msg).fromId = 10 ∧
     (⟨10, "", "", "", some "/admin"⟩ : Msg).text = some "/admin" ∧
     envBroadcastWait.session.state = FSMState.waiting_broadcast_text) ∧
    dispatchMessage 10 "" envBroadcastWait ⟨10, "", "", "", some "/admin"⟩ =
      receive_broadcast_text 10 10 "/admin" envBroadcastWait ∧
    (receive_broadcast_text 10 10 "/admin" envBroadcastWait).1.session.broadcast_text =
      some (pyTake "/admin" 4000) :=
  ⟨⟨rfl, rfl, rfl⟩,
   (C9_text_states_consume_all_text 10 "" "/admin" envBroadcastWait
     ⟨10, "", "", "", some "/admin"⟩ rfl rfl).1 rfl⟩

/-- Claim C10: for any sequence of user registrations into the initially
empty users table, the registered identity list has no duplicates
(`user_id` is the primary key and registration is an upsert), a dispatch
attempts exactly the identities of that list in order — each registered
identity exactly once, so no user receives the broadcast twice — and the
final counts satisfy sent + failed = number of listed identities. -/
theorem C10_broadcast_each_user_once (regs : List UserRow) (ok : Nat → Bool) :
    (db_get_all_user_ids (registerAll regs)).Nodup ∧
    (broadcastRun ok (db_get_all_user_ids (registerAll regs))).2.2
      = db_get_all_user_ids (registerAll regs) ∧
    (broadcastRun ok (db_get_all_user_ids (registerAll regs))).1 +
      (broadcastRun ok (db_get_all_user_ids (registerAll regs))).2.1
      = (db_get_all_user_ids (registerAll regs)).length ∧
    ∀ uid ∈ db_get_all_user_ids (registerAll regs),
      ((broadcastRun ok (db_get_all_user_ids (registerAll regs))).2.2).count uid = 1 := by
  have hnd := nodup_user_ids_registerAll regs
  have htr : (broadcastRun ok (db_get_all_user_ids (registerAll regs))).2.2
      = db_get_all_user_ids (registerAll regs) := by rw [broadcastRun_eq]
  refine ⟨hnd, htr, ?_, ?_⟩
  · rw [broadcastRun_eq]
    exact countP_ok_add_countP_not ..
  · intro uid hmem
    rw [htr]
    exact List.count_eq_one_of_mem hnd hmem

/-- Witness for C10 with one registered user. -/
theorem C10_witness :
    42 ∈ db_get_all_user_ids (registerAll [⟨42, "a", "A", "B", "ts"⟩]) ∧
    ((broadcastRun (fun _ => true)
        (db_get_all_user_ids (registerAll [⟨42, "a", "A", "B", "ts"⟩]))).2.2).count 42
      = 1 :=
  ⟨by decide, (C10_broadcast_each_user_once [⟨42, "a", "A", "B", "ts"⟩]
      (fun _ => true)).2.2.2 42 (by decide)⟩

end SlivOSH
